import Mathlib

/-!
Shallow embedding of `src/netmotive_ip_range_changer.py` (Netmotive IP Range
Changer): a profile store (name → static/DHCP profile) persisted as JSON, and
an adapter configurator that turns a profile into netsh commands.

GUI-only concerns (widgets, layout, stylesheet) are out of scope; the modal
dialogs the logic raises (warnings, error reports) are modelled as data
returned by the corresponding functions.
-/

namespace Netmotive

/-- The four text fields of a static profile record, as produced by
`MainWindow._collect_fields` (a dict with exactly these four keys). -/
structure StaticFields where
  ip : String
  mask : String
  gateway : String
  dns : String
deriving DecidableEq, Repr

/-- A stored profile value: either the literal JSON string `"dhcp"`
or a record of the four static fields. -/
inductive Profile where
  | dhcp : Profile
  | static : StaticFields → Profile
deriving DecidableEq, Repr

/-- The profile store: a Python dict keyed by profile name, modelled as an
association list in insertion order (Python dicts preserve insertion order;
keys are unique). -/
abbrev Store := List (String × Profile)

/-- Dict lookup `d[name]` / `name in d`: first entry with the key. -/
def Store.lookup : Store → String → Option Profile
  | [], _ => none
  | (k, v) :: rest, n => if k = n then some v else Store.lookup rest n

/-- Dict assignment `d[name] = p`: replace the value in place when the key is
present, append otherwise (Python insertion-order semantics). -/
def Store.insert : Store → String → Profile → Store
  | [], n, p => [(n, p)]
  | (k, v) :: rest, n, p =>
      if k = n then (n, p) :: rest else (k, v) :: Store.insert rest n p

/-- Dict deletion `del d[name]`: remove the entry with the key. -/
def Store.erase : Store → String → Store
  | [], _ => []
  | (k, v) :: rest, n => if k = n then rest else (k, v) :: Store.erase rest n

/-! ## netsh command builders (source: `static_cmd`, `dns_cmd`, `dhcp_cmd`) -/

/-- `q = lambda s: f'"{s}"'` — quote names with spaces. -/
def q (s : String) : String := "\"" ++ s ++ "\""

/-- `static_cmd(adapter, p)` from the source (metric 1). -/
def static_cmd (adapter : String) (p : StaticFields) : List String :=
  ["netsh", "interface", "ip", "set", "address", q adapter, "static",
   p.ip, p.mask, p.gateway, "1"]

/-- `dns_cmd(adapter, dns, dhcp)` from the source. -/
def dns_cmd (adapter : String) (dns : String) (dhcp : Bool) : List String :=
  if dhcp then ["netsh", "interface", "ip", "set", "dns", q adapter, "dhcp"]
  else ["netsh", "interface", "ip", "set", "dns", q adapter, "static", dns]

/-- `dhcp_cmd(adapter)` from the source. -/
def dhcp_cmd (adapter : String) : List String :=
  ["netsh", "interface", "ip", "set", "address", q adapter, "dhcp"]

/-! ## Command execution (source: `run_netsh`, `apply_profile`)

`subprocess.run(cmd, check=True)` either succeeds with captured stdout or
raises `CalledProcessError` carrying stderr on a non-zero exit.  The OS is
modelled as an oracle mapping each command to its outcome. -/

/-- Outcome of running one external command. -/
inductive RunResult where
  | ok : String → RunResult
  | fail : String → RunResult
deriving DecidableEq, Repr

/-- Observable effects accumulated while applying a profile: the OS commands
issued (each a `subprocess.run` call), the "Netsh Error" dialogs shown by
`run_netsh`, and the validation-warning dialogs shown by `apply_profile`. -/
structure ExecState where
  issued : List (List String)
  reports : List String
  warnings : List String
deriving DecidableEq, Repr

/-- Python's `str.strip()`: drop leading and trailing whitespace.  (Defined
over the character list so that it computes by kernel reduction.) -/
def strip (s : String) : String :=
  ⟨(((s.data.dropWhile Char.isWhitespace).reverse.dropWhile
      Char.isWhitespace).reverse)⟩

/-- The error-dialog text of `run_netsh`:
`f"Command: {' '.join(cmd)}\n\n{err.stderr}"`. -/
def netshErrorMsg (cmd : List String) (stderr : String) : String :=
  "Command: " ++ String.intercalate " " cmd ++ "\n\n" ++ stderr

/-- `run_netsh(cmd)`: run the command; on success return trimmed stdout, on a
non-zero exit show the error dialog and return `None`.  The command is issued
in either case; no failure escapes the function. -/
def run_netsh (os : List String → RunResult) (st : ExecState)
    (cmd : List String) : Option String × ExecState :=
  match os cmd with
  | RunResult.ok out =>
      (some (strip out), { st with issued := st.issued ++ [cmd] })
  | RunResult.fail stderr =>
      (none, { st with
               issued := st.issued ++ [cmd]
               reports := st.reports ++ [netshErrorMsg cmd stderr] })

/-- `profile.get(k)` on the static-fields dict (all four keys present). -/
def StaticFields.get (p : StaticFields) (k : String) : Option String :=
  if k = "ip" then some p.ip
  else if k = "mask" then some p.mask
  else if k = "gateway" then some p.gateway
  else if k = "dns" then some p.dns
  else none

/-- Python truthiness of `profile.get(k)`: a present, non-empty string. -/
def truthy : Option String → Bool
  | none => false
  | some s => !(s == "")

/-- `all(profile.get(k) for k in ("ip", "mask", "gateway", "dns"))`. -/
def fields_ok (p : StaticFields) : Bool :=
  (["ip", "mask", "gateway", "dns"]).all (fun k => truthy (StaticFields.get p k))

/-- `apply_profile(adapter, profile)` from the source, with effects made
explicit.  DHCP: issue `dhcp_cmd` then DHCP `dns_cmd`.  Static: if any of the
four fields is missing/empty, show the validation warning and issue nothing;
otherwise issue `static_cmd` then static `dns_cmd`. -/
def apply_profile (os : List String → RunResult) (adapter : String)
    (profile : Profile) : ExecState :=
  match profile with
  | Profile.dhcp =>
      let st1 := (run_netsh os ⟨[], [], []⟩ (dhcp_cmd adapter)).2
      (run_netsh os st1 (dns_cmd adapter "" true)).2
  | Profile.static p =>
      if fields_ok p then
        let st1 := (run_netsh os ⟨[], [], []⟩ (static_cmd adapter p)).2
        (run_netsh os st1 (dns_cmd adapter p.dns false)).2
      else
        { issued := [], reports := [],
          warnings := ["Static profile requires IP / Mask / Gateway / DNS."] }

/-- The first command of a valid application (DHCP or complete static). -/
def first_cmd (adapter : String) : Profile → List String
  | Profile.dhcp => dhcp_cmd adapter
  | Profile.static p => static_cmd adapter p

/-- The second command of a valid application. -/
def second_cmd (adapter : String) : Profile → List String
  | Profile.dhcp => dns_cmd adapter "" true
  | Profile.static p => dns_cmd adapter p.dns false

/-- A profile that passes `apply_profile`'s validation gate. -/
def validForApply : Profile → Bool
  | Profile.dhcp => true
  | Profile.static p => fields_ok p

/-! ## JSON persistence (source: `load_profiles`, `save_profiles`)

The store is flushed with `json.dumps` and read back with `json.loads`; both
belong to Python's standard library, so the file is modelled at the level of
the JSON documents it can hold: a parsed value, unparseable text, or absence.
Object members keep their textual order, matching `json.dumps`/`json.loads`
on Python dicts. -/

/-- A JSON value. -/
inductive Json where
  | null : Json
  | bool : Bool → Json
  | num : Int → Json
  | str : String → Json
  | arr : List Json → Json
  | obj : List (String × Json) → Json

/-- Member lookup in a JSON object, `j[k]`. -/
def jlookup : List (String × Json) → String → Option Json
  | [], _ => none
  | (k, v) :: rest, n => if k = n then some v else jlookup rest n

/-- A JSON value that is a string. -/
def asString : Json → Option String
  | Json.str s => some s
  | _ => none

/-- The state of `profiles.json` as seen through the JSON parser: missing,
holding well-formed JSON text that parses to `j`, or holding text on which
`json.loads` raises `ValueError`. -/
inductive FileContent where
  | absent : FileContent
  | json : Json → FileContent
  | corrupt : FileContent

/-- The JSON document a stored profile serializes to: the DHCP tag is the
string `"dhcp"`, a static record is an object with the four field keys. -/
def encodeProfile : Profile → Json
  | Profile.dhcp => Json.str "dhcp"
  | Profile.static p =>
      Json.obj [("ip", Json.str p.ip), ("mask", Json.str p.mask),
                ("gateway", Json.str p.gateway), ("dns", Json.str p.dns)]

/-- The JSON document the whole store serializes to. -/
def encodeStore (s : Store) : Json :=
  Json.obj (s.map (fun kv => (kv.1, encodeProfile kv.2)))

/-- `save_profiles(profiles)`: overwrite the file with the serialized store
(`json.dumps(profiles, indent=2)` always emits well-formed JSON). -/
def save_profiles (s : Store) : FileContent :=
  FileContent.json (encodeStore s)

/-- `load_profiles()`: if the file exists, return its parsed content; on a
parse failure warn (`"profiles.json corrupt – starting fresh."`) and fall
through to the empty dict; if the file is missing return the empty dict.
The result pairs the returned value with the warnings shown. -/
def load_profiles : FileContent → Json × List String
  | FileContent.absent => (Json.obj [], [])
  | FileContent.json j => (j, [])
  | FileContent.corrupt =>
      (Json.obj [], ["profiles.json corrupt – starting fresh."])

/-- Reading a profile back out of a loaded JSON document, the way the program
consumes it: the string `"dhcp"` is the DHCP tag (`prof == "dhcp"`), an
object is read through its `"ip"`, `"mask"`, `"gateway"`, `"dns"` members
(`prof["ip"]` …); anything else is not a profile. -/
def decodeProfile : Json → Option Profile
  | Json.str s => if s = "dhcp" then some Profile.dhcp else none
  | Json.obj fields =>
      (jlookup fields "ip").bind fun jip =>
      (asString jip).bind fun ip =>
      (jlookup fields "mask").bind fun jmask =>
      (asString jmask).bind fun mask =>
      (jlookup fields "gateway").bind fun jgw =>
      (asString jgw).bind fun gw =>
      (jlookup fields "dns").bind fun jdns =>
      (asString jdns).bind fun dns =>
      some (Profile.static ⟨ip, mask, gw, dns⟩)
  | _ => none

/-- Reading the members of a loaded JSON object back as store entries. -/
def decodeEntries : List (String × Json) → Option Store
  | [] => some []
  | (k, v) :: rest =>
      (decodeProfile v).bind fun p =>
      (decodeEntries rest).bind fun ps =>
      some ((k, p) :: ps)

/-- Reading a loaded JSON document back as a whole store. -/
def decodeStore : Json → Option Store
  | Json.obj fields => decodeEntries fields
  | _ => none

/-! ## GUI handlers (source: `MainWindow`)

The handlers read the text fields, mutate `self.profiles` and persist via
`_save_and_refresh`.  The relevant state is the store plus the form fields;
a handler returns the new store, whether `save_profiles` was called, and the
warning dialog it showed, if any. -/

/-- The text currently in the form's line-edit widgets. -/
structure Fields where
  profile_name : String
  ip : String
  mask : String
  gw : String
  dns : String
deriving DecidableEq, Repr

/-- Outcome of a CRUD handler: the store afterwards, whether it was persisted
(`_save_and_refresh` → `save_profiles`), and the warning shown, if any. -/
structure UIResult where
  profiles : Store
  saved : Bool
  warning : Option String
deriving DecidableEq, Repr

/-- `MainWindow._collect_fields`: the four field texts, stripped. -/
def collect_fields (f : Fields) : StaticFields :=
  { ip := strip f.ip
    mask := strip f.mask
    gateway := strip f.gw
    dns := strip f.dns }

/-- `MainWindow._add_profile`: reject an empty name or an existing name;
otherwise store the collected fields under the name and persist. -/
def add_profile (st : Store) (f : Fields) : UIResult :=
  let name := strip f.profile_name
  if name = "" then
    { profiles := st, saved := false, warning := some "Name required." }
  else if (Store.lookup st name).isSome then
    { profiles := st, saved := false
      warning := some "Profile exists – use Update." }
  else
    { profiles := Store.insert st name (Profile.static (collect_fields f))
      saved := true, warning := none }

/-- `MainWindow._update_profile`: reject a name not in the store; otherwise
overwrite the entry with the collected fields and persist. -/
def update_profile (st : Store) (f : Fields) : UIResult :=
  let name := strip f.profile_name
  if (Store.lookup st name).isNone then
    { profiles := st, saved := false
      warning := some "Select an existing profile." }
  else
    { profiles := Store.insert st name (Profile.static (collect_fields f))
      saved := true, warning := none }

/-- `MainWindow._delete_profile`: do nothing without a selected item; with a
selection, delete and persist only on interactive confirmation. -/
def delete_profile (st : Store) (selected : Option String)
    (confirmed : Bool) : UIResult :=
  match selected with
  | none => { profiles := st, saved := false, warning := none }
  | some name =>
      if confirmed then
        { profiles := Store.erase st name, saved := true, warning := none }
      else
        { profiles := st, saved := false, warning := none }

/-- `MainWindow._add_dhcp_profile`: default the name to `"DHCP"`, reject an
existing name, otherwise store the DHCP tag and persist. -/
def add_dhcp_profile (st : Store) (f : Fields) : UIResult :=
  let name := if strip f.profile_name = "" then "DHCP" else strip f.profile_name
  if (Store.lookup st name).isSome then
    { profiles := st, saved := false, warning := some "Name exists." }
  else
    { profiles := Store.insert st name Profile.dhcp
      saved := true, warning := none }

end Netmotive

/-! ## Supporting lemmas -/
namespace Netmotive

theorem get_ip (p : StaticFields) : StaticFields.get p "ip" = some p.ip := rfl

theorem get_mask (p : StaticFields) : StaticFields.get p "mask" = some p.mask := rfl

theorem get_gateway (p : StaticFields) :
    StaticFields.get p "gateway" = some p.gateway := rfl

theorem get_dns (p : StaticFields) : StaticFields.get p "dns" = some p.dns := rfl

theorem fields_ok_iff (p : StaticFields) :
    fields_ok p = true ↔
      p.ip ≠ "" ∧ p.mask ≠ "" ∧ p.gateway ≠ "" ∧ p.dns ≠ "" := by
  simp [fields_ok, get_ip, get_mask, get_gateway, get_dns, truthy]

theorem decodeProfile_encodeProfile (p : Profile) :
    decodeProfile (encodeProfile p) = some p := by
  cases p with
  | dhcp => rfl
  | static f => rfl

theorem lookup_insert_self (st : Store) (n : String) (p : Profile) :
    Store.lookup (Store.insert st n p) n = some p := by
  induction st with
  | nil => simp [Store.insert, Store.lookup]
  | cons kv rest ih =>
      obtain ⟨k, v⟩ := kv
      by_cases h : k = n
      · simp [Store.insert, Store.lookup, h]
      · simp [Store.insert, Store.lookup, h, ih]

theorem lookup_eq_none_of_not_mem (st : Store) (n : String)
    (h : n ∉ st.map Prod.fst) : Store.lookup st n = none := by
  induction st with
  | nil => rfl
  | cons kv rest ih =>
      obtain ⟨k, v⟩ := kv
      simp only [List.map_cons, List.mem_cons] at h
      push_neg at h
      have hk : ¬k = n := fun hh => h.1 hh.symm
      simp [Store.lookup, hk, ih h.2]

theorem lookup_erase_self (st : Store) (n : String)
    (hnd : (st.map Prod.fst).Nodup) :
    Store.lookup (Store.erase st n) n = none := by
  induction st with
  | nil => rfl
  | cons kv rest ih =>
      obtain ⟨k, v⟩ := kv
      simp only [List.map_cons, List.nodup_cons] at hnd
      by_cases h : k = n
      · simp only [Store.erase, if_pos h]
        exact lookup_eq_none_of_not_mem rest n (h ▸ hnd.1)
      · simp [Store.erase, Store.lookup, h, ih hnd.2]

theorem lookup_erase_ne (st : Store) (n m : String) (h : m ≠ n) :
    Store.lookup (Store.erase st n) m = Store.lookup st m := by
  induction st with
  | nil => rfl
  | cons kv rest ih =>
      obtain ⟨k, v⟩ := kv
      by_cases hk : k = n
      · subst hk
        simp [Store.erase, Store.lookup, Ne.symm h]
      · simp [Store.erase, Store.lookup, hk, ih]

theorem decodeEntries_encode (s : Store) :
    decodeEntries (s.map (fun kv => (kv.1, encodeProfile kv.2))) = some s := by
  induction s with
  | nil => rfl
  | cons kv rest ih =>
      obtain ⟨k, v⟩ := kv
      simp [decodeEntries, decodeProfile_encodeProfile, ih]

theorem decodeStore_encodeStore (s : Store) :
    decodeStore (encodeStore s) = some s :=
  decodeEntries_encode s

theorem run_netsh_issued (os : List String → RunResult) (st : ExecState)
    (cmd : List String) :
    ((run_netsh os st cmd).2).issued = st.issued ++ [cmd] := by
  unfold run_netsh
  cases os cmd <;> rfl

theorem run_netsh_warnings (os : List String → RunResult) (st : ExecState)
    (cmd : List String) :
    ((run_netsh os st cmd).2).warnings = st.warnings := by
  unfold run_netsh
  cases os cmd <;> rfl

theorem run_netsh_reports_fail (os : List String → RunResult) (st : ExecState)
    (cmd : List String) (e : String) (h : os cmd = RunResult.fail e) :
    ((run_netsh os st cmd).2).reports = st.reports ++ [netshErrorMsg cmd e] := by
  unfold run_netsh
  rw [h]

theorem run_netsh_reports_extends (os : List String → RunResult) (st : ExecState)
    (cmd : List String) :
    ∃ t, ((run_netsh os st cmd).2).reports = st.reports ++ t := by
  unfold run_netsh
  cases os cmd with
  | ok out => exact ⟨[], by simp⟩
  | fail e => exact ⟨[netshErrorMsg cmd e], rfl⟩

end Netmotive
namespace Netmotive

theorem apply_profile_issued_of_valid (os : List String → RunResult)
    (adapter : String) (profile : Profile) (h : validForApply profile = true) :
    (apply_profile os adapter profile).issued
      = [first_cmd adapter profile, second_cmd adapter profile] := by
  cases profile with
  | dhcp =>
      show ((run_netsh os (run_netsh os ⟨[], [], []⟩ (dhcp_cmd adapter)).2
        (dns_cmd adapter "" true)).2).issued = _
      rw [run_netsh_issued, run_netsh_issued]
      rfl
  | static p =>
      have hf : fields_ok p = true := h
      show (apply_profile os adapter (Profile.static p)).issued = _
      simp only [apply_profile, hf, if_true]
      rw [run_netsh_issued, run_netsh_issued]
      rfl

theorem apply_profile_reports_first_fail (os : List String → RunResult)
    (adapter : String) (profile : Profile) (e : String)
    (hv : validForApply profile = true)
    (hf : os (first_cmd adapter profile) = RunResult.fail e) :
    ∃ t, (apply_profile os adapter profile).reports
      = netshErrorMsg (first_cmd adapter profile) e :: t := by
  cases profile with
  | dhcp =>
      obtain ⟨t, ht⟩ := run_netsh_reports_extends os
        (run_netsh os ⟨[], [], []⟩ (dhcp_cmd adapter)).2 (dns_cmd adapter "" true)
      refine ⟨t, ?_⟩
      show ((run_netsh os (run_netsh os ⟨[], [], []⟩ (dhcp_cmd adapter)).2
        (dns_cmd adapter "" true)).2).reports = _
      rw [ht, run_netsh_reports_fail os ⟨[], [], []⟩ (dhcp_cmd adapter) e hf]
      rfl
  | static p =>
      have hfo : fields_ok p = true := hv
      obtain ⟨t, ht⟩ := run_netsh_reports_extends os
        (run_netsh os ⟨[], [], []⟩ (static_cmd adapter p)).2 (dns_cmd adapter p.dns false)
      refine ⟨t, ?_⟩
      have he : apply_profile os adapter (Profile.static p)
          = (run_netsh os (run_netsh os ⟨[], [], []⟩ (static_cmd adapter p)).2
            (dns_cmd adapter p.dns false)).2 := by
        simp only [apply_profile, hfo, if_true]
      rw [he, ht, run_netsh_reports_fail os ⟨[], [], []⟩ (static_cmd adapter p) e hf]
      rfl

theorem fields_ok_false_of_empty (p : StaticFields)
    (h : p.ip = "" ∨ p.mask = "" ∨ p.gateway = "" ∨ p.dns = "") :
    fields_ok p = false := by
  rcases h with h | h | h | h <;>
    simp [fields_ok, get_ip, get_mask, get_gateway, get_dns, truthy, h]

end Netmotive

/-! ## Claim theorems -/
namespace Netmotive

/-- C1 (counterexample): pressing Add with name `"p"` and all four field
texts empty saves a static record whose fields are all empty, with no
blocking warning — the UI does not block saving an incomplete static
profile. -/
theorem C1_counterexample :
    (add_profile [] ⟨"p", "", "", "", ""⟩).saved = true ∧
    (add_profile [] ⟨"p", "", "", "", ""⟩).warning = none ∧
    Store.lookup (add_profile [] ⟨"p", "", "", "", ""⟩).profiles "p"
      = some (Profile.static ⟨"", "", "", ""⟩) := by
  refine ⟨rfl, rfl, rfl⟩

/-- C1 (amended): once a static profile is saved via Add, its record carries
all four fields ip, mask, gateway, dns — as the stripped texts of the form,
possibly empty; Add checks only that the name is non-empty and unused, and
never blocks on empty fields (non-emptiness is enforced only at apply
time). -/
theorem C1_add_saves_collected_record (st : Store) (f : Fields)
    (hname : strip f.profile_name ≠ "")
    (hfresh : Store.lookup st (strip f.profile_name) = none) :
    (add_profile st f).saved = true ∧
    (add_profile st f).warning = none ∧
    Store.lookup (add_profile st f).profiles (strip f.profile_name)
      = some (Profile.static (collect_fields f)) := by
  have h2 : (Store.lookup st (strip f.profile_name)).isSome = false := by
    rw [hfresh]; rfl
  refine ⟨?_, ?_, ?_⟩ <;> simp [add_profile, hname, h2, lookup_insert_self]

/-- C1 (witness): the amended theorem applied to an empty store and a form
holding name `"p"` and only an IP text. -/
theorem C1_add_saves_collected_record_witness :
    (add_profile [] ⟨"p", "10.0.0.2", "", "", ""⟩).saved = true ∧
    (add_profile [] ⟨"p", "10.0.0.2", "", "", ""⟩).warning = none ∧
    Store.lookup (add_profile [] ⟨"p", "10.0.0.2", "", "", ""⟩).profiles "p"
      = some (Profile.static ⟨"10.0.0.2", "", "", ""⟩) :=
  C1_add_saves_collected_record [] ⟨"p", "10.0.0.2", "", "", ""⟩
    (by decide) rfl

/-- C2: applying a static profile with any of ip, mask, gateway, dns empty
issues zero OS commands and shows the validation warning, for every adapter
and every OS behaviour. -/
theorem C2_incomplete_static_issues_nothing (os : List String → RunResult)
    (adapter : String) (p : StaticFields)
    (h : p.ip = "" ∨ p.mask = "" ∨ p.gateway = "" ∨ p.dns = "") :
    (apply_profile os adapter (Profile.static p)).issued = [] ∧
    (apply_profile os adapter (Profile.static p)).warnings
      = ["Static profile requires IP / Mask / Gateway / DNS."] := by
  have hf : fields_ok p = false := fields_ok_false_of_empty p h
  constructor <;> simp [apply_profile, hf]

/-- C2 (witness): a static profile with an empty mask, applied to adapter
`"Ethernet"` under an always-succeeding OS. -/
theorem C2_incomplete_static_issues_nothing_witness :
    (apply_profile (fun _ => RunResult.ok "") "Ethernet"
      (Profile.static ⟨"192.168.1.50", "", "192.168.1.1", "8.8.8.8"⟩)).issued = [] ∧
    (apply_profile (fun _ => RunResult.ok "") "Ethernet"
      (Profile.static ⟨"192.168.1.50", "", "192.168.1.1", "8.8.8.8"⟩)).warnings
      = ["Static profile requires IP / Mask / Gateway / DNS."] :=
  C2_incomplete_static_issues_nothing (fun _ => RunResult.ok "") "Ethernet"
    ⟨"192.168.1.50", "", "192.168.1.1", "8.8.8.8"⟩ (Or.inr (Or.inl rfl))

/-- C3: applying a DHCP profile issues exactly two commands, in order: set
address to DHCP, then set DNS to DHCP — for every adapter name (spaces
included, the name is quoted wholesale) and every OS behaviour. -/
theorem C3_dhcp_issues_exactly_two (os : List String → RunResult)
    (adapter : String) :
    (apply_profile os adapter Profile.dhcp).issued
      = [dhcp_cmd adapter, dns_cmd adapter "" true] ∧
    (apply_profile os adapter Profile.dhcp).issued.length = 2 := by
  have h := apply_profile_issued_of_valid os adapter Profile.dhcp rfl
  exact ⟨h, by rw [h]; rfl⟩

/-- C4: applying a static profile with all four fields non-empty issues
exactly two commands, in order: the static-address command carrying ip,
mask and gateway, then the static-DNS command carrying dns. -/
theorem C4_complete_static_issues_two (os : List String → RunResult)
    (adapter : String) (p : StaticFields)
    (h : p.ip ≠ "" ∧ p.mask ≠ "" ∧ p.gateway ≠ "" ∧ p.dns ≠ "") :
    (apply_profile os adapter (Profile.static p)).issued
      = [static_cmd adapter p, dns_cmd adapter p.dns false] ∧
    p.ip ∈ static_cmd adapter p ∧ p.mask ∈ static_cmd adapter p ∧
    p.gateway ∈ static_cmd adapter p ∧
    p.dns ∈ dns_cmd adapter p.dns false := by
  have hf : fields_ok p = true := (fields_ok_iff p).mpr h
  refine ⟨apply_profile_issued_of_valid os adapter (Profile.static p) hf,
    ?_, ?_, ?_, ?_⟩ <;> simp [static_cmd, dns_cmd]

/-- C4 (witness): a complete static profile applied to `"Wi-Fi 2"` under an
always-succeeding OS. -/
theorem C4_complete_static_issues_two_witness :
    (apply_profile (fun _ => RunResult.ok "") "Wi-Fi 2"
      (Profile.static ⟨"192.168.1.50", "255.255.255.0", "192.168.1.1", "8.8.8.8"⟩)).issued
      = [static_cmd "Wi-Fi 2" ⟨"192.168.1.50", "255.255.255.0", "192.168.1.1", "8.8.8.8"⟩,
         dns_cmd "Wi-Fi 2" "8.8.8.8" false] ∧
    ("192.168.1.50" : String) ∈ static_cmd "Wi-Fi 2"
      ⟨"192.168.1.50", "255.255.255.0", "192.168.1.1", "8.8.8.8"⟩ ∧
    ("255.255.255.0" : String) ∈ static_cmd "Wi-Fi 2"
      ⟨"192.168.1.50", "255.255.255.0", "192.168.1.1", "8.8.8.8"⟩ ∧
    ("192.168.1.1" : String) ∈ static_cmd "Wi-Fi 2"
      ⟨"192.168.1.50", "255.255.255.0", "192.168.1.1", "8.8.8.8"⟩ ∧
    ("8.8.8.8" : String) ∈ dns_cmd "Wi-Fi 2" "8.8.8.8" false :=
  C4_complete_static_issues_two (fun _ => RunResult.ok "") "Wi-Fi 2"
    ⟨"192.168.1.50", "255.255.255.0", "192.168.1.1", "8.8.8.8"⟩
    (by refine ⟨?_, ?_, ?_, ?_⟩ <;> decide)

end Netmotive
namespace Netmotive

/-- C5: for a DHCP or complete static profile, when the first of the two
commands exits non-zero, the failure is reported in a "Netsh Error" dialog
and the second command is still issued: both commands appear in `issued`
whatever the OS returns, and the first report is the first command's error
dialog.  `apply_profile` is total, so no command failure terminates the
process. -/
theorem C5_first_failure_reported_second_still_issued
    (os : List String → RunResult) (adapter : String) (profile : Profile)
    (e : String) (hv : validForApply profile = true)
    (hfail : os (first_cmd adapter profile) = RunResult.fail e) :
    (apply_profile os adapter profile).issued
      = [first_cmd adapter profile, second_cmd adapter profile] ∧
    (apply_profile os adapter profile).reports.head?
      = some (netshErrorMsg (first_cmd adapter profile) e) := by
  refine ⟨apply_profile_issued_of_valid os adapter profile hv, ?_⟩
  obtain ⟨t, ht⟩ := apply_profile_reports_first_fail os adapter profile e hv hfail
  rw [ht]
  rfl

/-- C5 (witness): a DHCP application on `"Ethernet"` under an OS on which
every command fails with stderr `"boom"`. -/
theorem C5_first_failure_witness :
    (apply_profile (fun _ => RunResult.fail "boom") "Ethernet" Profile.dhcp).issued
      = [first_cmd "Ethernet" Profile.dhcp, second_cmd "Ethernet" Profile.dhcp] ∧
    (apply_profile (fun _ => RunResult.fail "boom") "Ethernet" Profile.dhcp).reports.head?
      = some (netshErrorMsg (first_cmd "Ethernet" Profile.dhcp) "boom") :=
  C5_first_failure_reported_second_still_issued
    (fun _ => RunResult.fail "boom") "Ethernet" Profile.dhcp "boom" rfl rfl

/-- C6: `load_profiles` never raises: an absent file yields the empty store
with no warning, and a file whose text fails to parse as JSON yields the
corrupt-file warning and the empty store. -/
theorem C6_load_absent_or_corrupt_is_empty :
    load_profiles FileContent.absent = (Json.obj [], []) ∧
    load_profiles FileContent.corrupt
      = (Json.obj [], ["profiles.json corrupt – starting fresh."]) :=
  ⟨rfl, rfl⟩

/-- C7: Add with a name already in the store is rejected — the store is
unchanged, nothing is persisted, and a warning is shown; Update with a name
not in the store is likewise rejected. -/
theorem C7_add_dup_update_missing_rejected (st : Store) (f : Fields) :
    ((Store.lookup st (strip f.profile_name)).isSome = true →
      (add_profile st f).profiles = st ∧ (add_profile st f).saved = false ∧
      ((add_profile st f).warning).isSome = true) ∧
    (Store.lookup st (strip f.profile_name) = none →
      (update_profile st f).profiles = st ∧
      (update_profile st f).saved = false ∧
      ((update_profile st f).warning).isSome = true) := by
  constructor
  · intro h
    by_cases hn : strip f.profile_name = ""
    · refine ⟨?_, ?_, ?_⟩ <;> simp [add_profile, hn]
    · refine ⟨?_, ?_, ?_⟩ <;> simp [add_profile, hn, h]
  · intro h
    have h2 : (Store.lookup st (strip f.profile_name)).isNone = true := by
      rw [h]; rfl
    refine ⟨?_, ?_, ?_⟩ <;> simp [update_profile, h2]

/-- C7 (witness): on the one-profile store `{"a": "dhcp"}`, Add with the
existing name `"a"` and Update with the absent name `"b"` are both
rejected. -/
theorem C7_add_dup_update_missing_rejected_witness :
    ((add_profile [("a", Profile.dhcp)] ⟨"a", "", "", "", ""⟩).profiles
        = [("a", Profile.dhcp)] ∧
      (add_profile [("a", Profile.dhcp)] ⟨"a", "", "", "", ""⟩).saved = false ∧
      ((add_profile [("a", Profile.dhcp)] ⟨"a", "", "", "", ""⟩).warning).isSome
        = true) ∧
    ((update_profile [("a", Profile.dhcp)] ⟨"b", "", "", "", ""⟩).profiles
        = [("a", Profile.dhcp)] ∧
      (update_profile [("a", Profile.dhcp)] ⟨"b", "", "", "", ""⟩).saved = false ∧
      ((update_profile [("a", Profile.dhcp)] ⟨"b", "", "", "", ""⟩).warning).isSome
        = true) :=
  ⟨(C7_add_dup_update_missing_rejected [("a", Profile.dhcp)]
      ⟨"a", "", "", "", ""⟩).1 (by decide),
   (C7_add_dup_update_missing_rejected [("a", Profile.dhcp)]
      ⟨"b", "", "", "", ""⟩).2 (by decide)⟩

/-- C8: serializing any store with `save_profiles` and loading it back with
`load_profiles` yields a JSON document that reads back as exactly the same
store; in particular every saved static profile comes back as an identical
record. -/
theorem C8_save_load_roundtrip (s : Store) (name : String) (p : StaticFields)
    (h : Store.lookup s name = some (Profile.static p)) :
    decodeStore (load_profiles (save_profiles s)).1 = some s ∧
    ∀ s2, decodeStore (load_profiles (save_profiles s)).1 = some s2 →
      Store.lookup s2 name = some (Profile.static p) := by
  have hrt : decodeStore (load_profiles (save_profiles s)).1 = some s :=
    decodeStore_encodeStore s
  refine ⟨hrt, fun s2 h2 => ?_⟩
  rw [hrt] at h2
  cases h2
  exact h

/-- C8 (witness): a one-profile store holding a complete static record
round-trips through save and load. -/
theorem C8_save_load_roundtrip_witness :
    decodeStore (load_profiles (save_profiles
        [("office", Profile.static
          ⟨"192.168.1.50", "255.255.255.0", "192.168.1.1", "8.8.8.8"⟩)])).1
      = some [("office", Profile.static
          ⟨"192.168.1.50", "255.255.255.0", "192.168.1.1", "8.8.8.8"⟩)] ∧
    ∀ s2, decodeStore (load_profiles (save_profiles
        [("office", Profile.static
          ⟨"192.168.1.50", "255.255.255.0", "192.168.1.1", "8.8.8.8"⟩)])).1
        = some s2 →
      Store.lookup s2 "office" = some (Profile.static
        ⟨"192.168.1.50", "255.255.255.0", "192.168.1.1", "8.8.8.8"⟩) :=
  C8_save_load_roundtrip
    [("office", Profile.static
      ⟨"192.168.1.50", "255.255.255.0", "192.168.1.1", "8.8.8.8"⟩)]
    "office" ⟨"192.168.1.50", "255.255.255.0", "192.168.1.1", "8.8.8.8"⟩
    (by decide)

/-- C9: deleting a selected, confirmed profile persists a store in which the
deleted name maps to nothing and every other name maps to the same record as
before. -/
theorem C9_delete_removes_exactly_one (st : Store) (name other : String)
    (hnd : (st.map Prod.fst).Nodup)
    (hin : (Store.lookup st name).isSome = true) (hne : other ≠ name) :
    (delete_profile st (some name) true).saved = true ∧
    Store.lookup (delete_profile st (some name) true).profiles name = none ∧
    Store.lookup (delete_profile st (some name) true).profiles other
      = Store.lookup st other := by
  refine ⟨rfl, ?_, ?_⟩
  · exact lookup_erase_self st name hnd
  · exact lookup_erase_ne st name other hne

/-- C9 (witness): deleting `"a"` from `{"a": "dhcp", "b": "dhcp"}` leaves
`"b"` intact. -/
theorem C9_delete_removes_exactly_one_witness :
    (delete_profile [("a", Profile.dhcp), ("b", Profile.dhcp)]
        (some "a") true).saved = true ∧
    Store.lookup (delete_profile [("a", Profile.dhcp), ("b", Profile.dhcp)]
        (some "a") true).profiles "a" = none ∧
    Store.lookup (delete_profile [("a", Profile.dhcp), ("b", Profile.dhcp)]
        (some "a") true).profiles "b"
      = Store.lookup [("a", Profile.dhcp), ("b", Profile.dhcp)] "b" :=
  C9_delete_removes_exactly_one [("a", Profile.dhcp), ("b", Profile.dhcp)]
    "a" "b" (by decide) (by decide) (by decide)

/-- C10: Update on any present name unconditionally overwrites the entry
with the static record collected from the form fields and persists; a
profile stored as the DHCP tag is thereby converted into a static record
(possibly with empty fields), so DHCP-ness is never preserved by Update. -/
theorem C10_update_always_stores_static (st : Store) (f : Fields)
    (h : (Store.lookup st (strip f.profile_name)).isSome = true) :
    (update_profile st f).profiles
      = Store.insert st (strip f.profile_name)
          (Profile.static (collect_fields f)) ∧
    Store.lookup (update_profile st f).profiles (strip f.profile_name)
      = some (Profile.static (collect_fields f)) ∧
    (update_profile st f).saved = true := by
  have h2 : (Store.lookup st (strip f.profile_name)).isNone = false := by
    cases hl : Store.lookup st (strip f.profile_name) with
    | none => rw [hl] at h; cases h
    | some pv => rfl
  refine ⟨?_, ?_, ?_⟩ <;> simp [update_profile, h2, lookup_insert_self]

/-- C10 (witness): updating the DHCP profile `"d"` with empty form fields
turns it into an all-empty static record. -/
theorem C10_update_always_stores_static_witness :
    (update_profile [("d", Profile.dhcp)] ⟨"d", "", "", "", ""⟩).profiles
      = Store.insert [("d", Profile.dhcp)] "d"
          (Profile.static ⟨"", "", "", ""⟩) ∧
    Store.lookup (update_profile [("d", Profile.dhcp)]
        ⟨"d", "", "", "", ""⟩).profiles "d"
      = some (Profile.static ⟨"", "", "", ""⟩) ∧
    (update_profile [("d", Profile.dhcp)] ⟨"d", "", "", "", ""⟩).saved = true :=
  C10_update_always_stores_static [("d", Profile.dhcp)] ⟨"d", "", "", "", ""⟩
    (by decide)

end Netmotive
